import Mathlib

/-!
Shallow embedding of the turn-based interview orchestration of the
hiready-flow repository: the `interview-chat` edge function (next question +
incremental score aggregation), the voice-interview client loop that drives
it, the `generate-final-report` edge function, and the locally generated mock
report.  JavaScript numbers that only ever hold integers are modelled as `ℤ`;
the division inside `Math.round` is carried out in `ℚ`.
-/

namespace HireadyFlow

/-- JavaScript `Math.round`: rounds half toward positive infinity, which for
every finite argument equals `⌊x + 0.5⌋` (written via the executable
`Rat.floor`). -/
def jsRound (q : ℚ) : ℤ := (q + 1/2).floor

/-- JavaScript `Math.floor`. -/
def jsFloor (q : ℚ) : ℤ := q.floor

/-- JavaScript `x || y` on an integer-valued field: `0` is the only falsy
integer, so `0 || y = y` and otherwise `x || y = x`. -/
def jsOrZ (x y : ℤ) : ℤ := if x = 0 then y else x

/-- JavaScript `x || y` where `x` is an optional integer field of a parsed
JSON object: an absent field is `undefined` (falsy), a present `0` is falsy
too. -/
def jsOrZOpt (x : Option ℤ) (y : ℤ) : ℤ :=
  match x with
  | some v => jsOrZ v y
  | none => y

/-- JavaScript `s || d` for an optional string field: absent and `""` are
falsy. -/
def jsOrS (s : Option String) (d : String) : String :=
  match s with
  | some v => if v = "" then d else v
  | none => d

/-- One chat message `{role, content}` as the client and the edge functions
exchange them. -/
structure Msg where
  role : String
  content : String
deriving DecidableEq

/-- The `evaluation` object of a parsed Groq response: one integer score per
dimension plus free-text notes. -/
structure Evaluation where
  communicationScore : ℤ
  confidenceScore : ℤ
  technicalScore : ℤ
  grammarScore : ℤ
  notes : String
deriving DecidableEq

/-- One entry of `analysis.answers`: the question/answer pair with the spread
evaluation scores.  The `timestamp` field of the source is wall-clock metadata
that is never read back and is omitted. -/
structure AnswerEval where
  question : String
  answer : String
  communicationScore : ℤ
  confidenceScore : ℤ
  technicalScore : ℤ
  grammarScore : ℤ
  notes : String
deriving DecidableEq

/-- The running `analysis_result` persisted with an interview: the list of
per-answer evaluations and the rounded running averages. -/
structure Analysis where
  answers : List AnswerEval
  communicationScore : ℤ
  confidenceScore : ℤ
  technicalScore : ℤ
  grammarScore : ℤ
  evaluationCount : ℕ
deriving DecidableEq

/-- The default analysis object the handler builds when the interview row has
no `analysis_result` yet. -/
def initialAnalysis : Analysis :=
  { answers := [], communicationScore := 0, confidenceScore := 0,
    technicalScore := 0, grammarScore := 0, evaluationCount := 0 }

/-- Running average of one dimension over the accumulated answers:
`answers.reduce((sum, a) => sum + (a.x || 0), 0) / count` — on integer scores
`a.x || 0` is the identity, so this is plain sum over length. -/
def dimAvg (scores : List ℤ) : ℚ := ((scores.sum : ℚ)) / ((scores.length : ℚ))

/-- The answer-evaluation object `{question, answer, ...reportUpdate}` the
handler appends to `analysis.answers`. -/
def mkAnswerEval (question answer : String) (e : Evaluation) : AnswerEval :=
  { question := question, answer := answer,
    communicationScore := e.communicationScore,
    confidenceScore := e.confidenceScore,
    technicalScore := e.technicalScore,
    grammarScore := e.grammarScore,
    notes := e.notes }

/-- The aggregate update of the interview-chat handler (part_007 lines
176-198): append the new answer evaluation, then store the rounded running
average of every dimension and the new count.  The raw scores are added to
the sums as returned by the evaluator — the source applies no clamping. -/
def updateAnalysis (a : Analysis) (question answer : String) (e : Evaluation) :
    Analysis :=
  let answers := a.answers ++ [mkAnswerEval question answer e]
  { answers := answers
    communicationScore := jsRound (dimAvg (answers.map AnswerEval.communicationScore))
    confidenceScore := jsRound (dimAvg (answers.map AnswerEval.confidenceScore))
    technicalScore := jsRound (dimAvg (answers.map AnswerEval.technicalScore))
    grammarScore := jsRound (dimAvg (answers.map AnswerEval.grammarScore))
    evaluationCount := answers.length }

/-- A scored turn as fed to the aggregate: the question, the candidate answer
and the evaluation the Evaluator returned for it. -/
abbrev TurnInput := String × String × Evaluation

/-- Folding a sequence of scored turns into the aggregate, starting from the
default analysis: the state of `analysis_result` after those turns. -/
def runEvals (turns : List TurnInput) : Analysis :=
  turns.foldl (fun a t => updateAnalysis a t.1 t.2.1 t.2.2) initialAnalysis

/-- The parsed body of a successful Groq completion in the interview-chat
handler: `{nextQuestion, evaluation}`; the evaluation object may be absent,
in which case `reportUpdate` stays falsy and the turn is not scored. -/
structure ParsedChat where
  nextQuestion : String
  evaluation : Option Evaluation
deriving DecidableEq

/-- Outcome of the evaluator round-trip, as the handler observes it:
a successful fetch whose content `JSON.parse` accepts, a successful fetch
whose content `JSON.parse` rejects, or a failed/`!ok` HTTP exchange (which
also covers an unreachable endpoint or a timeout of the fetch). -/
inductive EvalOutcome where
  | parsed (p : ParsedChat)
  | malformed
  | httpError (msg : String)
deriving DecidableEq

/-- JavaScript array read `arr[i]` with a possibly negative index: out of
range yields `undefined`, modelled as `none`. -/
def jsIndex (l : List Msg) (i : ℤ) : Option Msg :=
  if i < 0 then none else l.get? i.toNat

/-- The fixed introductory question of the first turn. -/
def introQuestion : String :=
  "Hello! Thank you for joining this interview. Let's start with an introduction. Please tell me about yourself and your background."

/-- The deterministic fallback question substituted when the Groq content
cannot be parsed. -/
def fallbackQuestion : String :=
  "Can you tell me more about your experience with problem-solving in your field?"

/-- The interview row state the handler reads and writes: the stored
transcript and the running analysis (a missing `analysis_result` is the
default object, `initialAnalysis`). -/
structure StoredInterview where
  transcript : List Msg
  analysis : Analysis
deriving DecidableEq

/-- The response body `{message, reportUpdate}` the interview-chat handler
returns. -/
structure ChatResponse where
  message : String
  reportUpdate : Option Evaluation
deriving DecidableEq

/-- The state update of a processed non-first turn (part_007 lines 147-216):
append the whole client message list plus the new assistant message to the
stored transcript, and fold the evaluation — when one was parsed — into the
analysis, reading the question and the answer from the last two client
messages with JavaScript indexing. -/
def analysisAfterTurn (messages : List Msg) (a : Analysis)
    (reportUpdate : Option Evaluation) : Analysis :=
  match reportUpdate with
  | some e =>
      updateAnalysis a
        (((jsIndex messages ((messages.length : ℤ) - 2)).map Msg.content).getD "")
        (((jsIndex messages ((messages.length : ℤ) - 1)).map Msg.content).getD "")
        e
  | none => a

/-- Response and persisted state of a processed non-first turn. -/
def interviewChatUpdate (messages : List Msg) (stored : StoredInterview)
    (questionText : String) (reportUpdate : Option Evaluation) :
    Except String (ChatResponse × StoredInterview × Bool) :=
  let updatedTranscript := stored.transcript ++ messages ++ [⟨"assistant", questionText⟩]
  Except.ok (⟨questionText, reportUpdate⟩,
    ⟨updatedTranscript, analysisAfterTurn messages stored.analysis reportUpdate⟩, true)

/-- Embedding of the interview-chat edge function handler (part_007), after
authentication, for a request that carries an `interviewId`.  The external
Groq call is an oracle `evaluator`; the `Bool` of the result records whether
it was invoked.  Resume context and prompt construction only feed the oracle
and are not modelled.  A thrown error (the non-`ok` Groq response) becomes
`Except.error`, the catch-all 500 branch of the handler. -/
def interviewChat (messages : List Msg) (evaluator : Unit → EvalOutcome)
    (stored : StoredInterview) : Except String (ChatResponse × StoredInterview × Bool) :=
  let isFirstQuestion := messages.isEmpty
  if isFirstQuestion then
    let questionText := introQuestion
    let updatedTranscript := stored.transcript ++ messages ++ [⟨"assistant", questionText⟩]
    Except.ok (⟨questionText, none⟩, ⟨updatedTranscript, stored.analysis⟩, false)
  else
    match evaluator () with
    | EvalOutcome.httpError e => Except.error ("Groq API error: " ++ e)
    | EvalOutcome.parsed p => interviewChatUpdate messages stored p.nextQuestion p.evaluation
    | EvalOutcome.malformed => interviewChatUpdate messages stored fallbackQuestion none

/-- Transcript component of a handler result (empty on the error branch,
where nothing is persisted). -/
def chatTranscript (r : Except String (ChatResponse × StoredInterview × Bool)) : List Msg :=
  match r with
  | Except.ok (_, st, _) => st.transcript
  | Except.error _ => []

/-- The interview length limit of the voice-interview client
(part_003 line 251). -/
def MAX_QUESTIONS : ℕ := 8

/-- Whitespace as the blank-answer check of the client sees it. -/
def isJsWhitespace (c : Char) : Bool :=
  c == ' ' || c == '\t' || c == '\n' || c == '\r'

/-- Embedding of the falsiness check `!transcript.trim()` (part_003 line
380): `trim` drops leading and trailing whitespace, so the trimmed string is
empty exactly when every character of the string is whitespace. -/
def isBlankText (s : String) : Bool := s.data.all isJsWhitespace

/-- The four score fields the client displays. -/
structure ScoreData where
  communicationScore : ℤ
  confidenceScore : ℤ
  technicalScore : ℤ
  grammarScore : ℤ
deriving DecidableEq

/-- Client score update on a turn that carried a `reportUpdate`
(part_003 lines 410-417): each field is `reportUpdate.x || scores.x`. -/
def updateScores (s : ScoreData) (e : Evaluation) : ScoreData :=
  { communicationScore := jsOrZ e.communicationScore s.communicationScore
    confidenceScore := jsOrZ e.confidenceScore s.confidenceScore
    technicalScore := jsOrZ e.technicalScore s.technicalScore
    grammarScore := jsOrZ e.grammarScore s.grammarScore }

/-- The voice-interview client state that drives the turn loop:
`questionCount`, the message history, the displayed scores, and whether
`finishInterview` (report generation) has been triggered. -/
structure ClientState where
  questionCount : ℕ
  messages : List Msg
  scores : ScoreData
  reportRequested : Bool
deriving DecidableEq

/-- Client plus the interview row it works against. -/
structure World where
  client : ClientState
  stored : StoredInterview
deriving DecidableEq

/-- Result of processing one recording: the new world, whether the Evaluator
was invoked, and the chat response received, if any. -/
structure StepOut where
  world : World
  evaluatorInvoked : Bool
  response : Option ChatResponse
deriving DecidableEq

/-- The client reads `chatResponse?.nextQuestion || ''`, but the handler
responds with the field `message`, not `nextQuestion`; the read is always
`undefined` and the client falls back to the empty string. -/
def clientNextQuestion (_ : ChatResponse) : String := ""

/-- Embedding of `processRecording` of the voice-interview client (part_003
lines 369-437), with the speech-to-text result abstracted into
`transcriptText`: blank text returns early; otherwise the user message is
appended, and either the question limit has been reached — `finishInterview`
is triggered and no further question is requested — or the interview-chat
function is called, and on success the scores, messages and `questionCount`
are updated (a thrown error is caught, leaving the count unchanged). -/
def systemStep (w : World) (transcriptText : String)
    (evaluator : Unit → EvalOutcome) : StepOut :=
  if isBlankText transcriptText then ⟨w, false, none⟩
  else
    let updatedMessages := w.client.messages ++ [⟨"user", transcriptText⟩]
    if MAX_QUESTIONS ≤ w.client.questionCount then
      ⟨⟨{ w.client with messages := updatedMessages, reportRequested := true },
        w.stored⟩, false, none⟩
    else
      match interviewChat updatedMessages evaluator w.stored with
      | Except.error _ =>
          ⟨⟨{ w.client with messages := updatedMessages }, w.stored⟩, true, none⟩
      | Except.ok (resp, stored2, _) =>
          let nextQuestion := clientNextQuestion resp
          let scores2 :=
            match resp.reportUpdate with
            | some e => updateScores w.client.scores e
            | none => w.client.scores
          ⟨⟨{ questionCount := w.client.questionCount + 1
              messages := updatedMessages ++ [⟨"assistant", nextQuestion⟩]
              scores := scores2
              reportRequested := w.client.reportRequested }, stored2⟩, true, some resp⟩

/-- A whole session: fold `processRecording` over a list of spoken answers,
each paired with the evaluator behavior of its turn. -/
def runSystem (w : World) (inputs : List (String × (Unit → EvalOutcome))) : World :=
  inputs.foldl (fun w i => (systemStep w i.1 i.2).world) w

/-- Client state right after a successful `initializeInterview` (part_003
lines 280-314): one question asked, the displayed first question being the
client-side default because the response field is `message`, not
`nextQuestion`. -/
def initClientState : ClientState :=
  { questionCount := 1
    messages := [⟨"assistant", "Introduce yourself and tell me about your background."⟩]
    scores := ⟨0, 0, 0, 0⟩
    reportRequested := false }

/-- One row of the `interviews` table, restricted to the columns the
interview-chat handler reads and writes; the schema has no version column. -/
structure InterviewRow where
  id : String
  userId : String
  transcript : List Msg
  analysis : Analysis
deriving DecidableEq

/-- Embedding of the persist step of the interview-chat handler (part_007
lines 208-215): `update({transcript, analysis_result}).eq('id',
interviewId).eq('user_id', user.id)` — an unconditional overwrite of every
matching row, with no version condition and no error surfaced for a
concurrent modification. -/
def updateInterview (rows : List InterviewRow) (interviewId userId : String)
    (transcript : List Msg) (analysis : Analysis) : List InterviewRow :=
  rows.map (fun r =>
    if r.id = interviewId ∧ r.userId = userId then
      { r with transcript := transcript, analysis := analysis }
    else r)

/-- The parsed body of a Groq completion in the generate-final-report
handler; every field is optional, since the model controls the JSON. -/
structure ParsedReport where
  overallSummary : Option String
  communicationScore : Option ℤ
  confidenceScore : Option ℤ
  technicalScore : Option ℤ
  grammarScore : Option ℤ
  overallScore : Option ℤ
  strengths : Option (List String)
  weaknesses : Option (List String)
  improvements : Option (List String)
  recommendation : Option String
  detailedFeedback : Option String
deriving DecidableEq

/-- Outcome of the summarization round-trip of the generate-final-report
handler, in the same three shapes as `EvalOutcome`. -/
inductive SummOutcome where
  | parsed (r : ParsedReport)
  | malformed
  | httpError (msg : String)
deriving DecidableEq

/-- The final report record the generate-final-report handler persists and
returns. -/
structure FinalReport where
  overallSummary : String
  communicationScore : ℤ
  confidenceScore : ℤ
  technicalScore : ℤ
  grammarScore : ℤ
  overallScore : ℤ
  strengths : List String
  weaknesses : List String
  improvements : List String
  recommendation : String
  detailedFeedback : String
  answers : List AnswerEval
  evaluationCount : ℕ
deriving DecidableEq

/-- Embedding of the generate-final-report serve handler
(InterviewReport.tsx lines 394-594) after the interview row was found, with
the Groq call abstracted into `outcome`.  A non-`ok` response is thrown and
becomes `Except.error` (the 500 branch); a parsed response is normalized
field by field with `||` defaults; an unparseable response falls back to a
report built from the running analysis, substituting 5 for a falsy (zero)
dimension.  The transcript only feeds the prompt, hence the oracle, and does
not appear. -/
def generateFinalReport (outcome : SummOutcome) (currentAnalysis : Analysis) :
    Except String FinalReport :=
  match outcome with
  | SummOutcome.httpError e => Except.error ("Groq API error: " ++ e)
  | SummOutcome.parsed r =>
      Except.ok
        { overallSummary := jsOrS r.overallSummary "Interview completed successfully."
          communicationScore :=
            jsOrZOpt r.communicationScore (jsOrZ currentAnalysis.communicationScore 5)
          confidenceScore :=
            jsOrZOpt r.confidenceScore (jsOrZ currentAnalysis.confidenceScore 5)
          technicalScore :=
            jsOrZOpt r.technicalScore (jsOrZ currentAnalysis.technicalScore 5)
          grammarScore :=
            jsOrZOpt r.grammarScore (jsOrZ currentAnalysis.grammarScore 5)
          overallScore :=
            jsOrZOpt r.overallScore
              (jsRound ((((jsOrZOpt r.communicationScore 5 : ℤ) : ℚ)
                + ((jsOrZOpt r.confidenceScore 5 : ℤ) : ℚ)
                + ((jsOrZOpt r.technicalScore 5 : ℤ) : ℚ)
                + ((jsOrZOpt r.grammarScore 5 : ℤ) : ℚ)) / 4))
          strengths := r.strengths.getD
            ["Good communication", "Professional demeanor", "Relevant experience"]
          weaknesses := r.weaknesses.getD
            ["Could provide more detail", "Room for technical depth"]
          improvements := r.improvements.getD
            ["Practice answering behavioral questions", "Expand on technical examples"]
          recommendation := jsOrS r.recommendation "Hire"
          detailedFeedback := jsOrS r.detailedFeedback
            "The candidate demonstrated competency across key areas."
          answers := currentAnalysis.answers
          evaluationCount := currentAnalysis.evaluationCount }
  | SummOutcome.malformed =>
      Except.ok
        { overallSummary := "Interview completed. Analysis based on real-time evaluations."
          communicationScore := jsOrZ currentAnalysis.communicationScore 5
          confidenceScore := jsOrZ currentAnalysis.confidenceScore 5
          technicalScore := jsOrZ currentAnalysis.technicalScore 5
          grammarScore := jsOrZ currentAnalysis.grammarScore 5
          overallScore :=
            jsRound ((((jsOrZ currentAnalysis.communicationScore 5 : ℤ) : ℚ)
              + ((jsOrZ currentAnalysis.confidenceScore 5 : ℤ) : ℚ)
              + ((jsOrZ currentAnalysis.technicalScore 5 : ℤ) : ℚ)
              + ((jsOrZ currentAnalysis.grammarScore 5 : ℤ) : ℚ)) / 4)
          strengths := ["Completed interview", "Engaged in conversation", "Professional approach"]
          weaknesses := ["More detailed responses recommended"]
          improvements := ["Practice technical questions", "Provide specific examples"]
          recommendation := "Hire"
          detailedFeedback := "The candidate participated in the interview and demonstrated competency."
          answers := currentAnalysis.answers
          evaluationCount := currentAnalysis.evaluationCount }

/-- The random draw of the report page (part_004 line 33):
`Math.floor(Math.random() * (max - min + 1)) + min`, with `r` the
`Math.random()` result. -/
def randomScore (r : ℚ) (min max : ℤ) : ℤ :=
  jsFloor (r * ((max : ℚ) - (min : ℚ) + 1)) + min

/-- The scores and recommendation of the locally generated mock report. -/
structure MockScores where
  communicationScore : ℤ
  confidenceScore : ℤ
  technicalScore : ℤ
  grammarScore : ℤ
  overallScore : ℤ
  recommendation : String
deriving DecidableEq

/-- The recommendation of the lowest branch of `generateMockReport`. -/
def noHireRecommendation : String :=
  "No Hire - Candidate does not meet the current requirements for this position."

/-- Score and recommendation core of `generateMockReport` (part_004 lines
36-53), with the four `Math.random()` draws as arguments `r1..r4`.  The
strengths/weaknesses/summary text assembly of the source depends only on the
answer texts, not on the scores, and is not modelled. -/
def generateMockReport (r1 r2 r3 r4 : ℚ) : MockScores :=
  let communicationScore := randomScore r1 60 98
  let confidenceScore := randomScore r2 50 95
  let technicalScore := randomScore r3 55 92
  let grammarScore := randomScore r4 60 95
  let overallScore := jsRound (((communicationScore : ℚ) + (confidenceScore : ℚ)
    + (technicalScore : ℚ) + (grammarScore : ℚ)) / 4)
  let recommendation :=
    if 85 ≤ overallScore then
      "Strong Hire - Candidate demonstrates exceptional skills and would be a valuable addition to the team."
    else if 70 ≤ overallScore then
      "Hire - Candidate shows good potential and meets the requirements for the position."
    else if 55 ≤ overallScore then
      "Borderline - Candidate has potential but may need additional training or experience."
    else noHireRecommendation
  ⟨communicationScore, confidenceScore, technicalScore, grammarScore,
    overallScore, recommendation⟩

/-- A sample evaluation with all four scores in range. -/
def demoEval : Evaluation := ⟨8, 7, 6, 9, "solid answer"⟩

/-- Stored interview state after the first (introductory) turn. -/
def demoStored1 : StoredInterview := ⟨[⟨"assistant", introQuestion⟩], initialAnalysis⟩

/-- The message history the client sends on its second turn: the whole
conversation so far. -/
def demoMsgs2 : List Msg :=
  [⟨"assistant", introQuestion⟩, ⟨"user", "I have five years of experience"⟩]

/-- A client/store world one question into a session. -/
def demoWorld : World :=
  ⟨⟨1, [⟨"assistant", "Q1"⟩], ⟨0, 0, 0, 0⟩, false⟩,
   ⟨[⟨"assistant", "Q1"⟩], initialAnalysis⟩⟩

/-- Two scored sample turns. -/
def demoTurns : List TurnInput :=
  [("q", "a", ⟨8, 7, 6, 9, "n"⟩), ("q2", "a2", ⟨6, 7, 6, 9, "n"⟩)]

/-- A running analysis with every dimension already in range. -/
def demoAnalysis : Analysis := ⟨[], 8, 7, 6, 9, 1⟩

/-- A world whose client has asked seven of the eight questions. -/
def demoWorld7 : World :=
  ⟨⟨7, [⟨"assistant", "Q7"⟩], ⟨7, 7, 7, 7⟩, false⟩, ⟨[], initialAnalysis⟩⟩

/-- A world whose client has asked all eight questions. -/
def demoWorld8 : World :=
  ⟨⟨8, [⟨"assistant", "Q8"⟩], ⟨7, 7, 7, 7⟩, false⟩, ⟨[], initialAnalysis⟩⟩

/-- A fresh interview row. -/
def demoRow : InterviewRow := ⟨"interview-1", "user-1", [], initialAnalysis⟩

/-- What a first writer persists. -/
def demoTranscriptA : List Msg := [⟨"assistant", "QA"⟩]

/-- What a second, stale writer persists. -/
def demoTranscriptB : List Msg := [⟨"assistant", "QB"⟩]

/-- All four dimension scores of an evaluation lie in [1,10]. -/
def evalBounded (e : Evaluation) : Prop :=
  (1 ≤ e.communicationScore ∧ e.communicationScore ≤ 10)
  ∧ (1 ≤ e.confidenceScore ∧ e.confidenceScore ≤ 10)
  ∧ (1 ≤ e.technicalScore ∧ e.technicalScore ≤ 10)
  ∧ (1 ≤ e.grammarScore ∧ e.grammarScore ≤ 10)

instance instDecidableEvalBounded (e : Evaluation) : Decidable (evalBounded e) := by
  unfold evalBounded
  infer_instance

theorem jsRound_eq (q : ℚ) : jsRound q = ⌊q + 1/2⌋ := by
  rw [jsRound, Rat.floor_def', Rat.floor_def]

theorem jsFloor_eq (q : ℚ) : jsFloor q = ⌊q⌋ := by
  rw [jsFloor, Rat.floor_def', Rat.floor_def]

/-- Lower bound for `Math.round`: any integer below the argument is at most
the rounded value. -/
theorem le_jsRound (z : ℤ) (q : ℚ) (h : (z : ℚ) ≤ q) : z ≤ jsRound q := by
  rw [jsRound_eq]
  exact Int.le_floor.mpr (by linarith)

/-- Upper bound for `Math.round`: if the argument is below `z + 1/2` the
rounded value is at most `z`. -/
theorem jsRound_le (z : ℤ) (q : ℚ) (h : q < (z : ℚ) + 1/2) : jsRound q ≤ z := by
  rw [jsRound_eq]
  have : q + 1/2 < ((z + 1 : ℤ) : ℚ) := by push_cast; linarith
  exact Int.lt_add_one_iff.mp (Int.floor_lt.mpr this)

/-- C4: the first call on a fresh session (empty message history) never
invokes the Evaluator — the result is the same for every oracle and its
invocation flag is `false` — and returns the fixed introductory question,
leaving the aggregate untouched. -/
theorem first_turn_fixed_intro (evaluator : Unit → EvalOutcome) (stored : StoredInterview) :
    interviewChat [] evaluator stored
      = Except.ok (⟨introQuestion, none⟩,
          ⟨stored.transcript ++ [⟨"assistant", introQuestion⟩], stored.analysis⟩, false) := by
  simp [interviewChat]

/-- C1: on a non-first turn whose Groq content is unparseable, the handler
responds with the deterministic fallback question and a null `reportUpdate`,
persists the aggregate unchanged while still appending to the transcript,
and the client — the holder of the turn counter — still increments its
`questionCount`. -/
theorem malformed_turn_degrades (w : World) (t : String)
    (ht : isBlankText t = false) (hqc : w.client.questionCount < MAX_QUESTIONS) :
    (systemStep w t (fun _ => EvalOutcome.malformed)).response
        = some ⟨fallbackQuestion, none⟩
      ∧ (systemStep w t (fun _ => EvalOutcome.malformed)).world.stored.analysis
        = w.stored.analysis
      ∧ (systemStep w t (fun _ => EvalOutcome.malformed)).world.stored.transcript
        = w.stored.transcript ++ (w.client.messages ++ [⟨"user", t⟩])
          ++ [⟨"assistant", fallbackQuestion⟩]
      ∧ (systemStep w t (fun _ => EvalOutcome.malformed)).world.client.questionCount
        = w.client.questionCount + 1 := by
  have hmax : ¬ MAX_QUESTIONS ≤ w.client.questionCount := Nat.not_le.mpr hqc
  have hne : (w.client.messages ++ [(⟨"user", t⟩ : Msg)]).isEmpty = false := by
    simp [List.isEmpty_iff]
  simp [systemStep, ht, hmax, interviewChat, hne, interviewChatUpdate, analysisAfterTurn]

/-- Closed instance of `malformed_turn_degrades`: one question in, a
malformed evaluator response degrades as stated. -/
theorem malformed_turn_degrades_witness :
    (systemStep demoWorld "my project used queues" (fun _ => EvalOutcome.malformed)).response
        = some ⟨fallbackQuestion, none⟩
      ∧ (systemStep demoWorld "my project used queues" (fun _ => EvalOutcome.malformed)).world.stored.analysis
        = demoWorld.stored.analysis
      ∧ (systemStep demoWorld "my project used queues" (fun _ => EvalOutcome.malformed)).world.stored.transcript
        = demoWorld.stored.transcript
          ++ (demoWorld.client.messages ++ [⟨"user", "my project used queues"⟩])
          ++ [⟨"assistant", fallbackQuestion⟩]
      ∧ (systemStep demoWorld "my project used queues" (fun _ => EvalOutcome.malformed)).world.client.questionCount
        = demoWorld.client.questionCount + 1 :=
  malformed_turn_degrades demoWorld "my project used queues" (by decide) (by decide)

/-- C7 counterexample: an evaluator HTTP failure on a non-first turn is NOT
recovered like malformed output — it surfaces as a hard error (the 500
branch), while the same turn with unparseable content succeeds with the
fallback question.  This refutes the claim that an unreachable Evaluator
degrades exactly as on malformed output and never surfaces a hard error. -/
theorem evaluator_error_hard_counterexample :
    interviewChat [⟨"user", "hello"⟩] (fun _ => EvalOutcome.httpError "timeout")
        ⟨[], initialAnalysis⟩
      = Except.error "Groq API error: timeout"
    ∧ interviewChat [⟨"user", "hello"⟩] (fun _ => EvalOutcome.malformed)
        ⟨[], initialAnalysis⟩
      = Except.ok (⟨fallbackQuestion, none⟩,
          ⟨[⟨"user", "hello"⟩, ⟨"assistant", fallbackQuestion⟩], initialAnalysis⟩, true) := by
  exact ⟨rfl, rfl⟩

/-- C7 amended: an evaluator HTTP failure (unreachable endpoint, timeout of
the fetch, non-ok status) on a non-first turn is thrown and surfaced to the
caller as a hard 500 error with no state persisted; only successfully
fetched but unparseable content degrades to the deterministic fallback. -/
theorem evaluator_http_error_surfaces (messages : List Msg) (e : String)
    (stored : StoredInterview) (h : messages ≠ []) :
    interviewChat messages (fun _ => EvalOutcome.httpError e) stored
      = Except.error ("Groq API error: " ++ e) := by
  have hne : messages.isEmpty = false := by simp [List.isEmpty_iff, h]
  simp [interviewChat, hne]

/-- Closed instance of `evaluator_http_error_surfaces`. -/
theorem evaluator_http_error_surfaces_witness :
    interviewChat [⟨"user", "hello"⟩] (fun _ => EvalOutcome.httpError "timeout")
        ⟨[], initialAnalysis⟩
      = Except.error ("Groq API error: " ++ "timeout") :=
  evaluator_http_error_surfaces [⟨"user", "hello"⟩] "timeout" ⟨[], initialAnalysis⟩ (by decide)

/-- C5 counterexample: the second turn of a session does not append two
entries — the handler re-appends the entire client message history plus the
assistant message, so the stored transcript gains three entries here and the
introductory question is now stored twice (duplication). -/
theorem transcript_duplication_counterexample :
    chatTranscript (interviewChat demoMsgs2
        (fun _ => EvalOutcome.parsed ⟨"Q2", some demoEval⟩) demoStored1)
      = [⟨"assistant", introQuestion⟩, ⟨"assistant", introQuestion⟩,
         ⟨"user", "I have five years of experience"⟩, ⟨"assistant", "Q2"⟩]
    ∧ (chatTranscript (interviewChat demoMsgs2
        (fun _ => EvalOutcome.parsed ⟨"Q2", some demoEval⟩) demoStored1)).length
      = demoStored1.transcript.length + 3
    ∧ (chatTranscript (interviewChat demoMsgs2
        (fun _ => EvalOutcome.parsed ⟨"Q2", some demoEval⟩) demoStored1)).count
          ⟨"assistant", introQuestion⟩
      = 2 := by
  refine ⟨rfl, rfl, ?_⟩
  rfl

/-- C5 amended: a completed non-first turn appends the client-sent message
history plus one assistant entry — `messages.length + 1` entries, not two —
to the stored transcript; the previously stored entries are preserved in
order as a prefix of the new transcript (nothing is removed or reordered),
but entries the client re-sends are appended again, duplicating them. -/
theorem turn_appends_history_and_question (messages : List Msg) (q : String)
    (ev : Option Evaluation) (stored : StoredInterview) (h : messages ≠ []) :
    interviewChat messages (fun _ => EvalOutcome.parsed ⟨q, ev⟩) stored
        = Except.ok (⟨q, ev⟩,
            ⟨stored.transcript ++ messages ++ [⟨"assistant", q⟩],
             analysisAfterTurn messages stored.analysis ev⟩, true)
      ∧ (stored.transcript ++ messages ++ [(⟨"assistant", q⟩ : Msg)]).length
        = stored.transcript.length + messages.length + 1 := by
  have hne : messages.isEmpty = false := by simp [List.isEmpty_iff, h]
  constructor
  · simp [interviewChat, hne, interviewChatUpdate]
  · simp [List.length_append]
    omega

/-- Closed instance of `turn_appends_history_and_question` at the second
turn of a session. -/
theorem turn_appends_history_and_question_witness :
    interviewChat demoMsgs2 (fun _ => EvalOutcome.parsed ⟨"Q2", some demoEval⟩) demoStored1
        = Except.ok (⟨"Q2", some demoEval⟩,
            ⟨demoStored1.transcript ++ demoMsgs2 ++ [⟨"assistant", "Q2"⟩],
             analysisAfterTurn demoMsgs2 demoStored1.analysis (some demoEval)⟩, true)
      ∧ (demoStored1.transcript ++ demoMsgs2 ++ [(⟨"assistant", "Q2"⟩ : Msg)]).length
        = demoStored1.transcript.length + demoMsgs2.length + 1 :=
  turn_appends_history_and_question demoMsgs2 "Q2" (some demoEval) demoStored1 (by decide)

/-- C2 counterexample: a communication score of 15 returned by the Evaluator
enters the aggregate unmodified — after one scored turn the stored running
mean is 15, outside [1,10] — so no clamping to [1,10] happens before
aggregation. -/
theorem unclamped_score_counterexample :
    (runEvals [("q1", "a1", ⟨15, 7, 7, 7, "overscored"⟩)]).communicationScore = 15
    ∧ ¬ (runEvals [("q1", "a1", ⟨15, 7, 7, 7, "overscored"⟩)]).communicationScore ≤ 10 := by
  have h : (runEvals [("q1", "a1", (⟨15, 7, 7, 7, "overscored"⟩ : Evaluation))]).communicationScore = 15 := by
    norm_num [runEvals, updateAnalysis, dimAvg, jsRound_eq, mkAnswerEval, initialAnalysis]
  exact ⟨h, by rw [h]; norm_num⟩

/-- C2 amended: dimension scores are folded into the running sums exactly as
the Evaluator returned them — each update appends one answer whose raw
scores extend the per-dimension sums, with no clamping applied (`x || 0`
only maps a missing score to 0). -/
theorem scores_aggregated_unclamped (a : Analysis) (question answer : String)
    (e : Evaluation) :
    ((updateAnalysis a question answer e).answers.map AnswerEval.communicationScore).sum
        = (a.answers.map AnswerEval.communicationScore).sum + e.communicationScore
      ∧ ((updateAnalysis a question answer e).answers.map AnswerEval.confidenceScore).sum
        = (a.answers.map AnswerEval.confidenceScore).sum + e.confidenceScore
      ∧ ((updateAnalysis a question answer e).answers.map AnswerEval.technicalScore).sum
        = (a.answers.map AnswerEval.technicalScore).sum + e.technicalScore
      ∧ ((updateAnalysis a question answer e).answers.map AnswerEval.grammarScore).sum
        = (a.answers.map AnswerEval.grammarScore).sum + e.grammarScore
      ∧ (updateAnalysis a question answer e).answers.length = a.answers.length + 1 := by
  simp [updateAnalysis, mkAnswerEval]

theorem foldl_update_answers (turns : List TurnInput) :
    ∀ a : Analysis,
      (List.foldl (fun a t => updateAnalysis a t.1 t.2.1 t.2.2) a turns).answers
        = a.answers ++ turns.map (fun t => mkAnswerEval t.1 t.2.1 t.2.2) := by
  induction turns with
  | nil => intro a; simp
  | cons t ts ih =>
      intro a
      simp only [List.foldl_cons, List.map_cons]
      rw [ih]
      simp [updateAnalysis]

theorem runEvals_answers (turns : List TurnInput) :
    (runEvals turns).answers = turns.map (fun t => mkAnswerEval t.1 t.2.1 t.2.2) := by
  simpa [runEvals, initialAnalysis] using foldl_update_answers turns initialAnalysis

theorem runEvals_concat (ts : List TurnInput) (t : TurnInput) :
    runEvals (ts ++ [t]) = updateAnalysis (runEvals ts) t.1 t.2.1 t.2.2 := by
  rw [runEvals, runEvals, List.foldl_append]
  rfl

theorem runEvals_communication (turns : List TurnInput) (hne : turns ≠ []) :
    (runEvals turns).communicationScore
      = jsRound (dimAvg (turns.map (fun t => t.2.2.communicationScore))) := by
  rcases List.eq_nil_or_concat' turns with rfl | ⟨ts, t, rfl⟩
  · exact absurd rfl hne
  · rw [runEvals_concat]
    simp [updateAnalysis, runEvals_answers, mkAnswerEval, List.map_append, List.map_map,
      Function.comp_def]

theorem runEvals_confidence (turns : List TurnInput) (hne : turns ≠ []) :
    (runEvals turns).confidenceScore
      = jsRound (dimAvg (turns.map (fun t => t.2.2.confidenceScore))) := by
  rcases List.eq_nil_or_concat' turns with rfl | ⟨ts, t, rfl⟩
  · exact absurd rfl hne
  · rw [runEvals_concat]
    simp [updateAnalysis, runEvals_answers, mkAnswerEval, List.map_append, List.map_map,
      Function.comp_def]

theorem runEvals_technical (turns : List TurnInput) (hne : turns ≠ []) :
    (runEvals turns).technicalScore
      = jsRound (dimAvg (turns.map (fun t => t.2.2.technicalScore))) := by
  rcases List.eq_nil_or_concat' turns with rfl | ⟨ts, t, rfl⟩
  · exact absurd rfl hne
  · rw [runEvals_concat]
    simp [updateAnalysis, runEvals_answers, mkAnswerEval, List.map_append, List.map_map,
      Function.comp_def]

theorem runEvals_grammar (turns : List TurnInput) (hne : turns ≠ []) :
    (runEvals turns).grammarScore
      = jsRound (dimAvg (turns.map (fun t => t.2.2.grammarScore))) := by
  rcases List.eq_nil_or_concat' turns with rfl | ⟨ts, t, rfl⟩
  · exact absurd rfl hne
  · rw [runEvals_concat]
    simp [updateAnalysis, runEvals_answers, mkAnswerEval, List.map_append, List.map_map,
      Function.comp_def]

theorem runEvals_evaluationCount (turns : List TurnInput) :
    (runEvals turns).evaluationCount = turns.length := by
  rcases List.eq_nil_or_concat' turns with rfl | ⟨ts, t, rfl⟩
  · simp [runEvals, initialAnalysis]
  · rw [runEvals_concat]
    simp [updateAnalysis, runEvals_answers]

theorem length_le_sum_of_bounds (l : List ℤ) (h : ∀ x ∈ l, 1 ≤ x ∧ x ≤ 10) :
    (l.length : ℤ) ≤ l.sum ∧ l.sum ≤ 10 * (l.length : ℤ) := by
  induction l with
  | nil => simp
  | cons x xs ih =>
      obtain ⟨h1, h2⟩ := h x (List.mem_cons_self x xs)
      obtain ⟨ih1, ih2⟩ := ih (fun y hy => h y (List.mem_cons_of_mem x hy))
      constructor
      · simp only [List.sum_cons, List.length_cons]
        push_cast
        linarith
      · simp only [List.sum_cons, List.length_cons]
        push_cast
        linarith

theorem dimAvg_bounds (l : List ℤ) (hne : l ≠ [])
    (h : ∀ x ∈ l, 1 ≤ x ∧ x ≤ 10) : 1 ≤ dimAvg l ∧ dimAvg l ≤ 10 := by
  have hpos : 0 < (l.length : ℚ) := by exact_mod_cast List.length_pos.mpr hne
  obtain ⟨h1, h2⟩ := length_le_sum_of_bounds l h
  have h1q : ((l.length : ℤ) : ℚ) ≤ ((l.sum : ℤ) : ℚ) := by exact_mod_cast h1
  have h2q : ((l.sum : ℤ) : ℚ) ≤ 10 * ((l.length : ℤ) : ℚ) := by exact_mod_cast h2
  constructor
  · rw [dimAvg, le_div_iff₀ hpos]
    push_cast at h1q ⊢
    linarith
  · rw [dimAvg, div_le_iff₀ hpos]
    push_cast at h2q ⊢
    linarith

theorem jsRound_mean_bounds (q : ℚ) (h1 : 1 ≤ q) (h2 : q ≤ 10) :
    1 ≤ jsRound q ∧ jsRound q ≤ 10 :=
  ⟨le_jsRound 1 q (by exact_mod_cast h1), jsRound_le 10 q (by push_cast; linarith)⟩

/-- C3: after any nonempty sequence of scored turns whose per-turn scores all
lie in [1,10], every stored per-dimension running mean equals
`Math.round(sum/count)` and lies in [1,10], and the stored count equals the
number of scored turns. -/
theorem running_mean_rounded_and_bounded (turns : List TurnInput)
    (hne : turns ≠ []) (hall : ∀ t ∈ turns, evalBounded t.2.2) :
    ((runEvals turns).communicationScore
        = jsRound (dimAvg (turns.map (fun t => t.2.2.communicationScore)))
      ∧ 1 ≤ (runEvals turns).communicationScore
      ∧ (runEvals turns).communicationScore ≤ 10)
    ∧ ((runEvals turns).confidenceScore
        = jsRound (dimAvg (turns.map (fun t => t.2.2.confidenceScore)))
      ∧ 1 ≤ (runEvals turns).confidenceScore
      ∧ (runEvals turns).confidenceScore ≤ 10)
    ∧ ((runEvals turns).technicalScore
        = jsRound (dimAvg (turns.map (fun t => t.2.2.technicalScore)))
      ∧ 1 ≤ (runEvals turns).technicalScore
      ∧ (runEvals turns).technicalScore ≤ 10)
    ∧ ((runEvals turns).grammarScore
        = jsRound (dimAvg (turns.map (fun t => t.2.2.grammarScore)))
      ∧ 1 ≤ (runEvals turns).grammarScore
      ∧ (runEvals turns).grammarScore ≤ 10)
    ∧ (runEvals turns).evaluationCount = turns.length := by
  have hmapne : ∀ f : TurnInput → ℤ, turns.map f ≠ [] := by
    intro f
    simpa using hne
  have hbound : ∀ (f : TurnInput → ℤ), (∀ t : TurnInput, evalBounded t.2.2 → 1 ≤ f t ∧ f t ≤ 10) →
      1 ≤ dimAvg (turns.map f) ∧ dimAvg (turns.map f) ≤ 10 := by
    intro f hf
    refine dimAvg_bounds (turns.map f) (hmapne f) ?_
    intro x hx
    obtain ⟨t, ht, rfl⟩ := List.mem_map.mp hx
    exact hf t (hall t ht)
  refine ⟨?_, ?_, ?_, ?_, runEvals_evaluationCount turns⟩
  · have heq := runEvals_communication turns hne
    have hb := hbound (fun t => t.2.2.communicationScore) (fun t he => he.1)
    obtain ⟨hb1, hb2⟩ := jsRound_mean_bounds _ hb.1 hb.2
    exact ⟨heq, by rw [heq]; exact hb1, by rw [heq]; exact hb2⟩
  · have heq := runEvals_confidence turns hne
    have hb := hbound (fun t => t.2.2.confidenceScore) (fun t he => he.2.1)
    obtain ⟨hb1, hb2⟩ := jsRound_mean_bounds _ hb.1 hb.2
    exact ⟨heq, by rw [heq]; exact hb1, by rw [heq]; exact hb2⟩
  · have heq := runEvals_technical turns hne
    have hb := hbound (fun t => t.2.2.technicalScore) (fun t he => he.2.2.1)
    obtain ⟨hb1, hb2⟩ := jsRound_mean_bounds _ hb.1 hb.2
    exact ⟨heq, by rw [heq]; exact hb1, by rw [heq]; exact hb2⟩
  · have heq := runEvals_grammar turns hne
    have hb := hbound (fun t => t.2.2.grammarScore) (fun t he => he.2.2.2)
    obtain ⟨hb1, hb2⟩ := jsRound_mean_bounds _ hb.1 hb.2
    exact ⟨heq, by rw [heq]; exact hb1, by rw [heq]; exact hb2⟩

/-- Closed instance of `running_mean_rounded_and_bounded` on two scored
turns. -/
theorem running_mean_rounded_and_bounded_witness :
    ((runEvals demoTurns).communicationScore
        = jsRound (dimAvg (demoTurns.map (fun t => t.2.2.communicationScore)))
      ∧ 1 ≤ (runEvals demoTurns).communicationScore
      ∧ (runEvals demoTurns).communicationScore ≤ 10)
    ∧ ((runEvals demoTurns).confidenceScore
        = jsRound (dimAvg (demoTurns.map (fun t => t.2.2.confidenceScore)))
      ∧ 1 ≤ (runEvals demoTurns).confidenceScore
      ∧ (runEvals demoTurns).confidenceScore ≤ 10)
    ∧ ((runEvals demoTurns).technicalScore
        = jsRound (dimAvg (demoTurns.map (fun t => t.2.2.technicalScore)))
      ∧ 1 ≤ (runEvals demoTurns).technicalScore
      ∧ (runEvals demoTurns).technicalScore ≤ 10)
    ∧ ((runEvals demoTurns).grammarScore
        = jsRound (dimAvg (demoTurns.map (fun t => t.2.2.grammarScore)))
      ∧ 1 ≤ (runEvals demoTurns).grammarScore
      ∧ (runEvals demoTurns).grammarScore ≤ 10)
    ∧ (runEvals demoTurns).evaluationCount = demoTurns.length :=
  running_mean_rounded_and_bounded demoTurns (by decide) (by decide)

theorem systemStep_questionCount_le (w : World) (t : String) (e : Unit → EvalOutcome)
    (h : w.client.questionCount ≤ MAX_QUESTIONS) :
    (systemStep w t e).world.client.questionCount ≤ MAX_QUESTIONS := by
  unfold systemStep
  by_cases hbl : isBlankText t = true
  · rw [if_pos hbl]
    exact h
  · rw [if_neg hbl]
    dsimp only
    by_cases hmax : MAX_QUESTIONS ≤ w.client.questionCount
    · rw [if_pos hmax]
      exact h
    · rw [if_neg hmax]
      rcases hcall : interviewChat (w.client.messages ++ [⟨"user", t⟩]) e w.stored
        with err | ⟨resp, stored2, b⟩
      · rw [hcall]
        exact h
      · rw [hcall]
        dsimp only
        simp only [MAX_QUESTIONS] at hmax ⊢
        omega

theorem runSystem_questionCount_le (inputs : List (String × (Unit → EvalOutcome)))
    (w : World) (h : w.client.questionCount ≤ MAX_QUESTIONS) :
    (runSystem w inputs).client.questionCount ≤ MAX_QUESTIONS := by
  induction inputs generalizing w with
  | nil => simpa [runSystem] using h
  | cons i is ih =>
      simp only [runSystem, List.foldl_cons] at ih ⊢
      exact ih _ (systemStep_questionCount_le w i.1 i.2 h)

theorem at_limit_no_question (w : World) (t : String) (e : Unit → EvalOutcome)
    (h : MAX_QUESTIONS ≤ w.client.questionCount) :
    (systemStep w t e).evaluatorInvoked = false
    ∧ (systemStep w t e).response = none
    ∧ (systemStep w t e).world.client.questionCount = w.client.questionCount
    ∧ (isBlankText t = false → (systemStep w t e).world.client.reportRequested = true) := by
  unfold systemStep
  by_cases hbl : isBlankText t = true
  · rw [if_pos hbl]
    exact ⟨rfl, rfl, rfl, fun hb => by simp [hbl] at hb⟩
  · rw [if_neg hbl]
    dsimp only
    rw [if_pos h]
    exact ⟨rfl, rfl, rfl, fun _ => rfl⟩

/-- C6 counterexample: when the client processes the answer to question 7,
`questionCount` reaches `MAX_QUESTIONS = 8`, but the turn response is an
ordinary `{message, reportUpdate}` object carrying no finality marker and
the session is not finished; only the NEXT processed recording triggers
report generation — with no evaluator call and no response at all.  No
`isFinal = true` is ever returned. -/
theorem final_turn_unmarked_counterexample :
    (systemStep demoWorld7 "answer seven"
        (fun _ => EvalOutcome.parsed ⟨"Q8", some demoEval⟩)).world.client.questionCount = 8
    ∧ (systemStep demoWorld7 "answer seven"
        (fun _ => EvalOutcome.parsed ⟨"Q8", some demoEval⟩)).world.client.reportRequested = false
    ∧ (systemStep demoWorld7 "answer seven"
        (fun _ => EvalOutcome.parsed ⟨"Q8", some demoEval⟩)).response
      = some ⟨"Q8", some demoEval⟩
    ∧ (systemStep demoWorld8 "answer eight"
        (fun _ => EvalOutcome.parsed ⟨"Q9", some demoEval⟩)).response = none
    ∧ (systemStep demoWorld8 "answer eight"
        (fun _ => EvalOutcome.parsed ⟨"Q9", some demoEval⟩)).evaluatorInvoked = false
    ∧ (systemStep demoWorld8 "answer eight"
        (fun _ => EvalOutcome.parsed ⟨"Q9", some demoEval⟩)).world.client.reportRequested = true := by
  refine ⟨?_, ?_, ?_, ?_, ?_, ?_⟩ <;> rfl

/-- C6 amended: `questionCount` never exceeds `MAX_QUESTIONS = 8` along any
run, and once the limit is reached a processed recording requests no further
question — the Evaluator is not invoked, no turn response is produced, and
report generation is triggered instead; no `isFinal` marker exists in any
response, the limit being enforced purely client-side. -/
theorem turn_limit_enforced :
    (∀ (w : World) (inputs : List (String × (Unit → EvalOutcome))),
        w.client.questionCount ≤ MAX_QUESTIONS →
        (runSystem w inputs).client.questionCount ≤ MAX_QUESTIONS)
    ∧ (∀ (w : World) (t : String) (e : Unit → EvalOutcome),
        MAX_QUESTIONS ≤ w.client.questionCount →
        (systemStep w t e).evaluatorInvoked = false
        ∧ (systemStep w t e).response = none
        ∧ (isBlankText t = false → (systemStep w t e).world.client.reportRequested = true)) :=
  ⟨fun w inputs h => runSystem_questionCount_le inputs w h,
   fun w t e h =>
     ⟨(at_limit_no_question w t e h).1, (at_limit_no_question w t e h).2.1,
      (at_limit_no_question w t e h).2.2.2⟩⟩

/-- C9 counterexample: two writers load the same interview row; the first
persists its state, then the second — still working from the stale read —
persists too.  The second update succeeds unconditionally and silently
replaces the first writer's transcript and analysis: there is no version
field and no conflict is surfaced. -/
theorem stale_write_overwrites_counterexample :
    updateInterview
        (updateInterview [demoRow] "interview-1" "user-1" demoTranscriptA initialAnalysis)
        "interview-1" "user-1" demoTranscriptB demoAnalysis
      = [⟨"interview-1", "user-1", demoTranscriptB, demoAnalysis⟩]
    ∧ demoTranscriptA ≠ demoTranscriptB := by
  exact ⟨rfl, by decide⟩

/-- C9 amended: persistence is an unconditional update keyed only on the
interview id and the owner id — last writer wins: a second update over the
same keys completely absorbs any earlier one, with no version condition and
no conflict reported to either caller. -/
theorem persist_last_writer_wins (rows : List InterviewRow)
    (interviewId userId : String) (t1 : List Msg) (a1 : Analysis)
    (t2 : List Msg) (a2 : Analysis) :
    updateInterview (updateInterview rows interviewId userId t1 a1)
        interviewId userId t2 a2
      = updateInterview rows interviewId userId t2 a2 := by
  unfold updateInterview
  rw [List.map_map]
  refine List.map_congr_left ?_
  intro r _
  by_cases hc : r.id = interviewId ∧ r.userId = userId
  · simp [hc]
  · simp [hc]

/-- C8 counterexample: when the summarization call itself fails (non-ok
response or unreachable endpoint), the generate-final-report handler does
NOT return a deterministic fallback report — the thrown error surfaces as a
hard 500 error. -/
theorem report_api_error_hard_counterexample :
    generateFinalReport (SummOutcome.httpError "service unavailable") demoAnalysis
      = Except.error "Groq API error: service unavailable" := rfl

/-- C8 amended: when the summarization call succeeds but its output is
unparseable, the handler returns a deterministic report built from the
running aggregate alone — per-dimension scores are copied from the aggregate
(5 would be substituted only for a falsy zero dimension) and the overall
score is the rounded mean of the four dimension values, lying in [1,10];
a failed summarization call instead surfaces a hard 500 error. -/
theorem parse_failure_fallback_report (a : Analysis)
    (hc : 1 ≤ a.communicationScore ∧ a.communicationScore ≤ 10)
    (hf : 1 ≤ a.confidenceScore ∧ a.confidenceScore ≤ 10)
    (ht : 1 ≤ a.technicalScore ∧ a.technicalScore ≤ 10)
    (hg : 1 ≤ a.grammarScore ∧ a.grammarScore ≤ 10) :
    ∃ r : FinalReport,
      generateFinalReport SummOutcome.malformed a = Except.ok r
      ∧ r.communicationScore = a.communicationScore
      ∧ r.confidenceScore = a.confidenceScore
      ∧ r.technicalScore = a.technicalScore
      ∧ r.grammarScore = a.grammarScore
      ∧ r.overallScore = jsRound (((a.communicationScore : ℚ) + (a.confidenceScore : ℚ)
          + (a.technicalScore : ℚ) + (a.grammarScore : ℚ)) / 4)
      ∧ 1 ≤ r.overallScore ∧ r.overallScore ≤ 10 := by
  have hc0 : a.communicationScore ≠ 0 := by omega
  have hf0 : a.confidenceScore ≠ 0 := by omega
  have ht0 : a.technicalScore ≠ 0 := by omega
  have hg0 : a.grammarScore ≠ 0 := by omega
  have hcq : (1 : ℚ) ≤ (a.communicationScore : ℚ) ∧ (a.communicationScore : ℚ) ≤ 10 :=
    ⟨by exact_mod_cast hc.1, by exact_mod_cast hc.2⟩
  have hfq : (1 : ℚ) ≤ (a.confidenceScore : ℚ) ∧ (a.confidenceScore : ℚ) ≤ 10 :=
    ⟨by exact_mod_cast hf.1, by exact_mod_cast hf.2⟩
  have htq : (1 : ℚ) ≤ (a.technicalScore : ℚ) ∧ (a.technicalScore : ℚ) ≤ 10 :=
    ⟨by exact_mod_cast ht.1, by exact_mod_cast ht.2⟩
  have hgq : (1 : ℚ) ≤ (a.grammarScore : ℚ) ∧ (a.grammarScore : ℚ) ≤ 10 :=
    ⟨by exact_mod_cast hg.1, by exact_mod_cast hg.2⟩
  have hmean1 : (1 : ℚ) ≤ ((a.communicationScore : ℚ) + (a.confidenceScore : ℚ)
      + (a.technicalScore : ℚ) + (a.grammarScore : ℚ)) / 4 := by
    obtain ⟨c1, _⟩ := hcq; obtain ⟨f1, _⟩ := hfq
    obtain ⟨t1, _⟩ := htq; obtain ⟨g1, _⟩ := hgq
    linarith
  have hmean2 : ((a.communicationScore : ℚ) + (a.confidenceScore : ℚ)
      + (a.technicalScore : ℚ) + (a.grammarScore : ℚ)) / 4 ≤ 10 := by
    obtain ⟨_, c2⟩ := hcq; obtain ⟨_, f2⟩ := hfq
    obtain ⟨_, t2⟩ := htq; obtain ⟨_, g2⟩ := hgq
    linarith
  obtain ⟨hb1, hb2⟩ := jsRound_mean_bounds _ hmean1 hmean2
  refine ⟨_, rfl, ?_, ?_, ?_, ?_, ?_, ?_, ?_⟩
  · simp [generateFinalReport, jsOrZ, hc0]
  · simp [generateFinalReport, jsOrZ, hf0]
  · simp [generateFinalReport, jsOrZ, ht0]
  · simp [generateFinalReport, jsOrZ, hg0]
  · simp [generateFinalReport, jsOrZ, hc0, hf0, ht0, hg0]
  · simpa [generateFinalReport, jsOrZ, hc0, hf0, ht0, hg0] using hb1
  · simpa [generateFinalReport, jsOrZ, hc0, hf0, ht0, hg0] using hb2

/-- Closed instance of `parse_failure_fallback_report` on an aggregate whose
means are 8, 7, 6 and 9. -/
theorem parse_failure_fallback_report_witness :
    ∃ r : FinalReport,
      generateFinalReport SummOutcome.malformed demoAnalysis = Except.ok r
      ∧ r.communicationScore = demoAnalysis.communicationScore
      ∧ r.confidenceScore = demoAnalysis.confidenceScore
      ∧ r.technicalScore = demoAnalysis.technicalScore
      ∧ r.grammarScore = demoAnalysis.grammarScore
      ∧ r.overallScore = jsRound (((demoAnalysis.communicationScore : ℚ)
          + (demoAnalysis.confidenceScore : ℚ) + (demoAnalysis.technicalScore : ℚ)
          + (demoAnalysis.grammarScore : ℚ)) / 4)
      ∧ 1 ≤ r.overallScore ∧ r.overallScore ≤ 10 :=
  parse_failure_fallback_report demoAnalysis (by decide) (by decide) (by decide) (by decide)

theorem randomScore_mem (r : ℚ) (min max : ℤ) (h0 : 0 ≤ r) (h1 : r < 1)
    (hle : min ≤ max) :
    min ≤ randomScore r min max ∧ randomScore r min max ≤ max := by
  unfold randomScore
  rw [jsFloor_eq]
  have hk : (0 : ℚ) < (max : ℚ) - (min : ℚ) + 1 := by
    have : (min : ℚ) ≤ (max : ℚ) := by exact_mod_cast hle
    linarith
  constructor
  · have hnn : (0 : ℤ) ≤ ⌊r * ((max : ℚ) - (min : ℚ) + 1)⌋ := by
      apply Int.le_floor.mpr
      push_cast
      exact mul_nonneg h0 (le_of_lt hk)
    linarith
  · have hlt : ⌊r * ((max : ℚ) - (min : ℚ) + 1)⌋ < max - min + 1 := by
      apply Int.floor_lt.mpr
      push_cast
      calc r * ((max : ℚ) - (min : ℚ) + 1)
          < 1 * ((max : ℚ) - (min : ℚ) + 1) := by
            exact mul_lt_mul_of_pos_right h1 hk
        _ = (max : ℚ) - (min : ℚ) + 1 := one_mul _
    omega

/-- C10: for every outcome of the four random draws, the mock report's
overall score is at least 56 — the minimum is `round(225/4) = 56` — so the
recommendation is never the No Hire branch, which requires an overall score
below 55. -/
theorem mock_report_never_no_hire (r1 r2 r3 r4 : ℚ)
    (h1 : 0 ≤ r1 ∧ r1 < 1) (h2 : 0 ≤ r2 ∧ r2 < 1)
    (h3 : 0 ≤ r3 ∧ r3 < 1) (h4 : 0 ≤ r4 ∧ r4 < 1) :
    56 ≤ (generateMockReport r1 r2 r3 r4).overallScore
    ∧ (generateMockReport r1 r2 r3 r4).recommendation ≠ noHireRecommendation := by
  have hc := randomScore_mem r1 60 98 h1.1 h1.2 (by norm_num)
  have hf := randomScore_mem r2 50 95 h2.1 h2.2 (by norm_num)
  have ht := randomScore_mem r3 55 92 h3.1 h3.2 (by norm_num)
  have hg := randomScore_mem r4 60 95 h4.1 h4.2 (by norm_num)
  have hover : (generateMockReport r1 r2 r3 r4).overallScore
      = jsRound ((((randomScore r1 60 98 : ℤ) : ℚ) + ((randomScore r2 50 95 : ℤ) : ℚ)
        + ((randomScore r3 55 92 : ℤ) : ℚ) + ((randomScore r4 60 95 : ℤ) : ℚ)) / 4) := rfl
  have h56 : 56 ≤ (generateMockReport r1 r2 r3 r4).overallScore := by
    rw [hover]
    apply le_jsRound
    have c1 : ((60 : ℤ) : ℚ) ≤ ((randomScore r1 60 98 : ℤ) : ℚ) := by
      exact_mod_cast hc.1
    have f1 : ((50 : ℤ) : ℚ) ≤ ((randomScore r2 50 95 : ℤ) : ℚ) := by
      exact_mod_cast hf.1
    have t1 : ((55 : ℤ) : ℚ) ≤ ((randomScore r3 55 92 : ℤ) : ℚ) := by
      exact_mod_cast ht.1
    have g1 : ((60 : ℤ) : ℚ) ≤ ((randomScore r4 60 95 : ℤ) : ℚ) := by
      exact_mod_cast hg.1
    push_cast at c1 f1 t1 g1 ⊢
    linarith
  refine ⟨h56, ?_⟩
  have hrec : (generateMockReport r1 r2 r3 r4).recommendation
      = (if 85 ≤ (generateMockReport r1 r2 r3 r4).overallScore then
          "Strong Hire - Candidate demonstrates exceptional skills and would be a valuable addition to the team."
        else if 70 ≤ (generateMockReport r1 r2 r3 r4).overallScore then
          "Hire - Candidate shows good potential and meets the requirements for the position."
        else if 55 ≤ (generateMockReport r1 r2 r3 r4).overallScore then
          "Borderline - Candidate has potential but may need additional training or experience."
        else noHireRecommendation) := rfl
  rw [hrec]
  split_ifs with hA hB hC
  · decide
  · decide
  · decide
  · omega

/-- Closed instance of `mock_report_never_no_hire` at the all-minimal draws:
overall score 56, Borderline recommendation. -/
theorem mock_report_never_no_hire_witness :
    56 ≤ (generateMockReport 0 0 0 0).overallScore
    ∧ (generateMockReport 0 0 0 0).recommendation ≠ noHireRecommendation :=
  mock_report_never_no_hire 0 0 0 0 (by norm_num) (by norm_num) (by norm_num) (by norm_num)

end HireadyFlow
